import Mathlib

/-!
Verification of the AI-Sales purchase ledger, customer directory, product
catalog and reporting fallback, shallowly embedded from the repository
sources (db.py, config.py, llm_client.py, monitoring.py).

Python floats are modelled as rationals; SQLite NULL as Option; table rows
as lists in rowid (insertion) order.  Each store operation is one Lean
function mirroring the corresponding Python method statement by statement.
-/

namespace AISales

/-! ## Python numeric values and coercions (db.py, add_purchase helpers) -/

/-- Value of a decimal digit character, none for a non-digit. -/
def digitVal (c : Char) : Option ℕ :=
  if c.isDigit then some (c.toNat - 48) else none

/-- Accumulates the value of a digit string; none when a non-digit appears. -/
def digitsValAux : List Char → ℕ → Option ℕ
  | [], acc => some acc
  | c :: cs, acc =>
    match digitVal c with
    | some d => digitsValAux cs (acc * 10 + d)
    | none => none

/-- Value of a (possibly empty) run of decimal digits. -/
def decimalDigits (cs : List Char) : Option ℕ := digitsValAux cs 0

/-- The character-level parse behind the Python builtin float(str) on plain
decimal literals: an optional sign, an integer part, an optional fractional
part after one dot.  Returns (negative, integer part, fraction numerator,
fraction digit count); none models the ValueError of any other string. -/
def floatParse (s : String) : Option (Bool × ℕ × ℕ × ℕ) :=
  let cs := s.data
  let neg : Bool := match cs with
    | '-' :: _ => true
    | _ => false
  let body : List Char := match cs with
    | '-' :: r => r
    | '+' :: r => r
    | r => r
  let ipart := body.takeWhile (fun c => c != '.')
  let rest := body.dropWhile (fun c => c != '.')
  match rest with
  | [] =>
    if ipart.isEmpty then none
    else (decimalDigits ipart).map (fun n => (neg, n, 0, 0))
  | _ :: fpart =>
    if fpart.contains '.' then none
    else if ipart.isEmpty && fpart.isEmpty then none
    else
      match decimalDigits ipart, decimalDigits fpart with
      | some i, some f => some (neg, i, f, fpart.length)
      | _, _ => none

/-- The rational a parse (sign, integer part, fraction) denotes. -/
def ratOfParts : Bool × ℕ × ℕ × ℕ → ℚ
  | (neg, i, f, k) => (if neg then -1 else 1) * ((i : ℚ) + (f : ℚ) / (10 : ℚ) ^ k)

/-- Models the Python builtin float(str): parse, then read off the value. -/
def floatOfString (s : String) : Option ℚ := (floatParse s).map ratOfParts

/-- A Python value reaching the numeric coercions of add_purchase: a number
(int or float) or a string.  None is modelled separately with Option at the
parameters whose default is None. -/
inductive PyVal where
  | num (q : ℚ)
  | str (s : String)
deriving DecidableEq, Repr

/-- Python truthiness of a PyVal: 0 and the empty string are falsy. -/
def pyTruthy : PyVal → Bool
  | .num q => decide (q ≠ 0)
  | .str s => decide (s ≠ "")

/-- Python float(v): numbers pass through, strings are parsed. -/
def pyFloat : PyVal → Option ℚ
  | .num q => some q
  | .str s => floatOfString s

/-- A try/except ValueError block around float(v): the default replaces a
failed parse. -/
def coerceFloat (v : PyVal) (dflt : ℚ) : ℚ := (pyFloat v).getD dflt

/-- Python str.strip(): drop leading and trailing whitespace. -/
def pyStrip (s : String) : String :=
  ⟨((s.data.dropWhile Char.isWhitespace).reverse.dropWhile Char.isWhitespace).reverse⟩

/-! ## Configuration (config.py) with its documented defaults -/

structure Config where
  MAX_RECENT_PURCHASES : ℕ := 10
  DEFAULT_CURRENCY : String := "USD"
  DAILY_SALES_TARGET : ℤ := 10
  LOW_SALES_THRESHOLD : ℤ := 5
deriving DecidableEq, Repr

/-! ## Purchase ledger (db.py, class PurchaseDB)

A row of the purchases table.  timestamp is second-precision; only its date
component (SQLite date(timestamp)) feeds the analytics queries, so it is
carried as an integer day number `day`.  Numeric columns are nullable in the
schema, hence Option; the ledger itself always writes them as some. -/

structure PurchaseRow where
  day : ℤ
  customer : String
  customer_email : String
  product : String
  amount : Option ℚ
  quantity : Option ℚ
  unit_price : Option ℚ
  subtotal : Option ℚ
  discount : Option ℚ
  tax : Option ℚ
  total : Option ℚ
  currency : String
  status : String
  payment_status : String
  fulfillment_status : String
  payment_method : String
  channel : String
  source : String
  region : String
  sales_rep : String
  invoice_id : String
  tags : String
  notes : String
deriving DecidableEq, Repr

/-- The purchases table: rows tagged with their AUTOINCREMENT id, kept in
insertion (id-ascending) order, plus the next id the sequence will assign. -/
structure Ledger where
  rows : List (ℕ × PurchaseRow)
  nextId : ℕ
deriving DecidableEq, Repr

/-- The arguments of PurchaseDB.add_purchase with their Python defaults. -/
structure PurchaseInput where
  customer : String := ""
  product : String := ""
  amount : PyVal := .num 0
  status : String := "Completed"
  customer_email : String := ""
  quantity : PyVal := .num 1
  unit_price : Option PyVal := none
  discount : PyVal := .num 0
  tax : PyVal := .num 0
  total : Option PyVal := none
  currency : Option String := none
  payment_status : String := ""
  fulfillment_status : String := ""
  payment_method : String := ""
  channel : String := ""
  source : String := ""
  region : String := ""
  sales_rep : String := ""
  invoice_id : String := ""
  tags : String := ""
  notes : String := ""
deriving DecidableEq, Repr

/-- The local variable quantity of add_purchase after its coercion: falsy
(0, "", None-like) or unparsable or nonpositive input becomes 1.0. -/
def qtyVal (inp : PurchaseInput) : ℚ :=
  let q0 : ℚ := if pyTruthy inp.quantity then coerceFloat inp.quantity 1 else 1
  if q0 ≤ 0 then 1 else q0

/-- The local variable amount of add_purchase after float() with 0 fallback. -/
def amountVal (inp : PurchaseInput) : ℚ := coerceFloat inp.amount 0

/-- The local variable unit_price: the amount when None, else float() with
0 fallback. -/
def unitPriceVal (inp : PurchaseInput) : ℚ :=
  match inp.unit_price with
  | none => amountVal inp
  | some v => coerceFloat v 0

/-- The local variable discount after float() with 0 fallback. -/
def discountVal (inp : PurchaseInput) : ℚ := coerceFloat inp.discount 0

/-- The local variable tax after float() with 0 fallback. -/
def taxVal (inp : PurchaseInput) : ℚ := coerceFloat inp.tax 0

/-- subtotal = max(quantity * unit_price, 0.0). -/
def subtotalVal (inp : PurchaseInput) : ℚ := max (qtyVal inp * unitPriceVal inp) 0

/-- computed_total = subtotal - max(discount, 0.0) + max(tax, 0.0). -/
def computedTotalVal (inp : PurchaseInput) : ℚ :=
  subtotalVal inp - max (discountVal inp) 0 + max (taxVal inp) 0

/-- The local variable total: the computed total when None or unparsable,
else float(total); a negative result is clamped to 0. -/
def totalVal (inp : PurchaseInput) : ℚ :=
  let t0 : ℚ :=
    match inp.total with
    | none => computedTotalVal inp
    | some v => coerceFloat v (computedTotalVal inp)
  if t0 < 0 then 0 else t0

/-- The row the INSERT statement of add_purchase writes, after the numeric
coercion block (db.py lines 121-163).  `day` is the date component of the
timestamp taken at the call.  Both the amount and the total column receive
the local variable total (db.py lines 181 and 187). -/
def purchaseRowOf (cfg : Config) (inp : PurchaseInput) (day : ℤ) : PurchaseRow :=
  let currency : String :=
    match inp.currency with
    | none => cfg.DEFAULT_CURRENCY
    | some s => if s = "" then cfg.DEFAULT_CURRENCY else s
  { day := day
    customer := inp.customer
    customer_email := inp.customer_email
    product := inp.product
    amount := some (totalVal inp)
    quantity := some (qtyVal inp)
    unit_price := some (unitPriceVal inp)
    subtotal := some (subtotalVal inp)
    discount := some (discountVal inp)
    tax := some (taxVal inp)
    total := some (totalVal inp)
    currency := currency
    status := inp.status
    payment_status := inp.payment_status
    fulfillment_status := inp.fulfillment_status
    payment_method := inp.payment_method
    channel := inp.channel
    source := inp.source
    region := inp.region
    sales_rep := inp.sales_rep
    invoice_id := inp.invoice_id
    tags := inp.tags
    notes := inp.notes }

/-- The INSERT plus the eviction DELETE of add_purchase, committed together.
The DELETE keeps the ids of `SELECT id ORDER BY id DESC LIMIT n`; ids are
primary keys (all distinct), so a row survives exactly when fewer than n ids
exceed its own. -/
def insertEvict (st : Ledger) (row : PurchaseRow) (n : ℕ) : Ledger :=
  let rows := st.rows ++ [(st.nextId, row)]
  let ids := rows.map Prod.fst
  { rows := rows.filter (fun p => (ids.filter (fun j => p.1 < j)).length < n)
    nextId := st.nextId + 1 }

/-- PurchaseDB.add_purchase: coerce the inputs, insert the row, evict beyond
Config.MAX_RECENT_PURCHASES, in one transaction (one state step). -/
def addPurchase (cfg : Config) (st : Ledger) (inp : PurchaseInput) (day : ℤ) : Ledger :=
  insertEvict st (purchaseRowOf cfg inp day) cfg.MAX_RECENT_PURCHASES

/-- Well-formedness of the table SQLite maintains by itself: ids strictly
increase in insertion order and stay below the next AUTOINCREMENT value. -/
def Ledger.WF (st : Ledger) : Prop :=
  (st.rows.map Prod.fst).Pairwise (· < ·) ∧
    ∀ i ∈ st.rows.map Prod.fst, i < st.nextId

/-! ## Analytics queries over the purchases table (db.py lines 322-354) -/

/-- SQL COALESCE(total, amount, 0) of a row. -/
def coalesceTA (r : PurchaseRow) : ℚ := r.total.getD (r.amount.getD 0)

/-- SUM(COALESCE(total, amount, 0)) over the rows of one date. -/
def dayRevenue (rows : List (ℕ × PurchaseRow)) (d : ℤ) : ℚ :=
  ((rows.filter (fun p => p.2.day = d)).map (fun p => coalesceTA p.2)).sum

structure DailySummary where
  count : ℕ
  revenue : ℚ
  avg : ℚ
deriving DecidableEq, Repr

/-- PurchaseDB.get_daily_summary: COUNT, SUM and AVG of COALESCE(total,
amount, 0) over the rows whose date equals the label; SUM and AVG are NULL
on an empty selection and the Python wrapper turns NULL into 0. -/
def getDailySummary (rows : List (ℕ × PurchaseRow)) (label : ℤ) : DailySummary :=
  let matching := rows.filter (fun p => p.2.day = label)
  { count := matching.length
    revenue := (matching.map (fun p => coalesceTA p.2)).sum
    avg := if matching.length = 0 then 0
           else (matching.map (fun p => coalesceTA p.2)).sum / matching.length }

/-- Inserts a date into an ascending duplicate-free date list, the order and
grouping GROUP BY date(timestamp) ORDER BY date(timestamp) produces. -/
def insertDate (d : ℤ) : List ℤ → List ℤ
  | [] => [d]
  | e :: es =>
    if d < e then d :: e :: es
    else if d = e then e :: es
    else e :: insertDate d es

/-- The ascending duplicate-free list of the dates occurring in l. -/
def sortDates (l : List ℤ) : List ℤ := l.foldr insertDate []

/-- PurchaseDB.get_sales_trend: for days ≤ 0 an empty list, otherwise the
rows with date(timestamp) ≥ date of today minus (days − 1), grouped by date
ascending, each date with its revenue sum. -/
def getSalesTrend (rows : List (ℕ × PurchaseRow)) (today days : ℤ) :
    List (ℤ × ℚ) :=
  if days ≤ 0 then []
  else
    let filtered := rows.filter (fun p => today - (days - 1) ≤ p.2.day)
    (sortDates (filtered.map (fun p => p.2.day))).map
      (fun d => (d, dayRevenue filtered d))

/-! ## Customer directory (db.py, class CustomerDB)

The schema allows NULL in every optional column, but upsert_customer writes
strings and every reader maps NULL to "", and COALESCE(NULLIF(x, ''), y)
treats NULL and '' alike; optional columns are therefore carried as String
with "" for NULL. -/

structure Customer where
  id : ℕ
  name : String
  email : String
  phone : String
  company : String
  industry : String
  segment : String
  status : String
  lead_source : String
  address_line1 : String
  address_line2 : String
  city : String
  state : String
  country : String
  postal_code : String
  notes : String
  last_contact_at : String
  created_at : String
  updated_at : String
deriving DecidableEq, Repr

/-- The customers table in rowid (insertion) order with the next id. -/
structure CustomerTable where
  rows : List Customer
  nextId : ℕ
deriving DecidableEq, Repr

/-- The arguments of CustomerDB.upsert_customer with their defaults. -/
structure CustomerInput where
  name : String := ""
  email : String := ""
  phone : String := ""
  company : String := ""
  industry : String := ""
  segment : String := ""
  status : String := ""
  lead_source : String := ""
  address_line1 : String := ""
  address_line2 : String := ""
  city : String := ""
  state : String := ""
  country : String := ""
  postal_code : String := ""
  notes : String := ""
  last_contact_at : String := ""
deriving DecidableEq, Repr

/-- SQL COALESCE(NULLIF(incoming, ''), prior): the incoming value wins only
when it is non-empty. -/
def keepNonEmpty (incoming prior : String) : String :=
  if incoming = "" then prior else incoming

/-- The UPDATE statement of upsert_customer applied to the matched row:
name is overwritten outright, every optional field merges by keepNonEmpty,
updated_at is set to now, created_at is untouched. -/
def mergeCustomer (c : Customer) (inp : CustomerInput) (now : String) : Customer :=
  { c with
    name := pyStrip inp.name
    email := keepNonEmpty (pyStrip inp.email) c.email
    phone := keepNonEmpty (pyStrip inp.phone) c.phone
    company := keepNonEmpty (pyStrip inp.company) c.company
    industry := keepNonEmpty (pyStrip inp.industry) c.industry
    segment := keepNonEmpty (pyStrip inp.segment) c.segment
    status := keepNonEmpty (pyStrip inp.status) c.status
    lead_source := keepNonEmpty (pyStrip inp.lead_source) c.lead_source
    address_line1 := keepNonEmpty (pyStrip inp.address_line1) c.address_line1
    address_line2 := keepNonEmpty (pyStrip inp.address_line2) c.address_line2
    city := keepNonEmpty (pyStrip inp.city) c.city
    state := keepNonEmpty (pyStrip inp.state) c.state
    country := keepNonEmpty (pyStrip inp.country) c.country
    postal_code := keepNonEmpty (pyStrip inp.postal_code) c.postal_code
    notes := keepNonEmpty (pyStrip inp.notes) c.notes
    last_contact_at := keepNonEmpty (pyStrip inp.last_contact_at) c.last_contact_at
    updated_at := now }

/-- The INSERT statement of upsert_customer: a fresh row from the trimmed
inputs; last_contact_at falls back to now when empty. -/
def newCustomerOf (cid : ℕ) (inp : CustomerInput) (now : String) : Customer :=
  { id := cid
    name := pyStrip inp.name
    email := pyStrip inp.email
    phone := pyStrip inp.phone
    company := pyStrip inp.company
    industry := pyStrip inp.industry
    segment := pyStrip inp.segment
    status := pyStrip inp.status
    lead_source := pyStrip inp.lead_source
    address_line1 := pyStrip inp.address_line1
    address_line2 := pyStrip inp.address_line2
    city := pyStrip inp.city
    state := pyStrip inp.state
    country := pyStrip inp.country
    postal_code := pyStrip inp.postal_code
    notes := pyStrip inp.notes
    last_contact_at := if pyStrip inp.last_contact_at = "" then now
                       else pyStrip inp.last_contact_at
    created_at := now
    updated_at := now }

/-- CustomerDB.upsert_customer (db.py lines 455-586): trim every field; a
blank name is rejected with none; resolution looks up by email first (only
when the trimmed email is non-empty), then by name; a match is updated by
mergeCustomer, otherwise a fresh row is inserted; the matched or new id is
returned.  The SELECT ... fetchone() of SQLite returns the first row in
rowid order, List.find? here. -/
def upsertCustomer (db : CustomerTable) (inp : CustomerInput) (now : String) :
    Option ℕ × CustomerTable :=
  let name := pyStrip inp.name
  let email := pyStrip inp.email
  if name = "" then (none, db)
  else
    let byEmail : Option Customer :=
      if email = "" then none else db.rows.find? (fun c => c.email = email)
    let found : Option Customer :=
      match byEmail with
      | some c => some c
      | none => db.rows.find? (fun c => c.name = name)
    match found with
    | some c =>
      (some c.id,
        { db with
          rows := db.rows.map (fun r => if r.id = c.id then mergeCustomer c inp now else r) })
    | none =>
      (some db.nextId,
        { rows := db.rows ++ [newCustomerOf db.nextId inp now]
          nextId := db.nextId + 1 })

/-! ## Product catalog (db.py, class ProductDB; config.py ensure_data_files)

SQLite is dynamically typed, so the updatable product columns are carried as
generic SQL values. -/

inductive SQLVal where
  | null
  | text (s : String)
  | real (q : ℚ)
  | int (n : ℤ)
deriving DecidableEq, Repr

structure Product where
  id : ℕ
  name : SQLVal
  sku : SQLVal
  category : SQLVal
  price : SQLVal
  cost : SQLVal
  tax_rate : SQLVal
  unit : SQLVal
  description : SQLVal
  features : SQLVal
  best_for : SQLVal
  active : SQLVal
  created_at : SQLVal
  updated_at : SQLVal
deriving DecidableEq, Repr

/-- The products table in rowid order with the next id. -/
structure ProductTable where
  rows : List Product
  nextId : ℕ
deriving DecidableEq, Repr

/-- One row of the products seed CSV (columns name, price, features,
best_for, as ensure_data_files writes it). -/
structure CsvRow where
  name : String := ""
  price : String := ""
  features : String := ""
  best_for : String := ""
deriving DecidableEq, Repr

/-- The sample rows ensure_data_files writes into products.csv when the
file is missing (config.py lines 75-99). -/
def sampleCsvRows : List CsvRow :=
  [{ name := "CRM Pro", price := "99",
     features := "Contact management, email tracking, basic reporting",
     best_for := "Small teams" },
   { name := "Analytics Suite", price := "149",
     features := "Dashboards, predictive insights, custom reports",
     best_for := "Data teams" },
   { name := "Marketing Tool", price := "79",
     features := "Email campaigns, social scheduling, A/B testing",
     best_for := "Marketing teams" }]

/-- ensure_data_files on the products seed file: create it with the sample
rows when absent, leave it alone otherwise.  The filesystem slot is the
parsed content of products.csv, none when the file does not exist. -/
def ensureProductsFile (fs : Option (List CsvRow)) : Option (List CsvRow) :=
  match fs with
  | none => some sampleCsvRows
  | some rows => some rows

/-- The price cell of a CSV row as _seed_if_empty coerces it:
p.get("price") or 0 (an empty cell falls back to the number 0), then
float(...); none models the ValueError that aborts the import loop. -/
def csvPrice (r : CsvRow) : Option ℚ :=
  if r.price = "" then some 0 else floatOfString r.price

/-- The product row the CSV import inserts (sku, category, cost, tax_rate,
unit, description fixed; active 1). -/
def csvProduct (pid : ℕ) (name : String) (price : ℚ) (r : CsvRow) (now : String) :
    Product :=
  { id := pid
    name := .text name
    sku := .text ""
    category := .text ""
    price := .real price
    cost := .real 0
    tax_rate := .real 0
    unit := .text ""
    description := .text ""
    features := .text r.features
    best_for := .text r.best_for
    active := .int 1
    created_at := .text now
    updated_at := .text now }

/-- The CSV import loop of _seed_if_empty: rows with a blank name are
skipped; a price that fails float() raises inside the loop, which aborts
the remaining rows but keeps the inserts already executed (the commit at
the end of _seed_if_empty still runs). -/
def seedFromCsv : List CsvRow → ℕ → String → List Product
  | [], _, _ => []
  | r :: rest, pid, now =>
    let name := pyStrip r.name
    if name = "" then seedFromCsv rest pid now
    else
      match csvPrice r with
      | none => []
      | some q => csvProduct pid name q r now :: seedFromCsv rest (pid + 1) now

/-- The fixed built-in sample set of _seed_if_empty (db.py lines 776-801). -/
def builtinSampleData : List (String × String × String × ℚ × String × String) :=
  [("CRM Pro", "CRM-001", "CRM", 99,
    "Contact management, email tracking, basic reporting", "Small teams"),
   ("Analytics Suite", "ANL-101", "Analytics", 149,
    "Dashboards, predictive insights, custom reports", "Data teams"),
   ("Marketing Tool", "MKT-201", "Marketing", 79,
    "Email campaigns, social scheduling, A/B testing", "Marketing teams")]

/-- The built-in sample insert of _seed_if_empty for one entry. -/
def builtinProduct (pid : ℕ) (e : String × String × String × ℚ × String × String)
    (now : String) : Product :=
  { id := pid
    name := .text e.1
    sku := .text e.2.1
    category := .text e.2.2.1
    price := .real e.2.2.2.1
    cost := .real 0
    tax_rate := .real 0
    unit := .text ""
    description := .text ""
    features := .text e.2.2.2.2.1
    best_for := .text e.2.2.2.2.2
    active := .int 1
    created_at := .text now
    updated_at := .text now }

/-- The built-in sample rows starting at id pid. -/
def builtinProducts (pid : ℕ) (now : String) : List Product :=
  [builtinProduct pid builtinSampleData[0] now,
   builtinProduct (pid + 1) builtinSampleData[1] now,
   builtinProduct (pid + 2) builtinSampleData[2] now]

/-- ProductDB._seed_if_empty (db.py lines 729-827): return unchanged when
any row exists; otherwise import from the seed file when it exists, and
fall back to the built-in samples when the file is absent or the import
inserted nothing (seeded stays False). -/
def seedIfEmpty (tbl : ProductTable) (fs : Option (List CsvRow)) (now : String) :
    ProductTable :=
  if 0 < tbl.rows.length then tbl
  else
    match fs with
    | some csv =>
      let imported := seedFromCsv csv tbl.nextId now
      if imported.isEmpty then
        { rows := tbl.rows ++ builtinProducts tbl.nextId now
          nextId := tbl.nextId + 3 }
      else
        { rows := tbl.rows ++ imported, nextId := tbl.nextId + imported.length }
    | none =>
      { rows := tbl.rows ++ builtinProducts tbl.nextId now
        nextId := tbl.nextId + 3 }

/-- ProductDB.__init__: ensure_data_files runs first (DBBase.__init__), so
a missing products.csv is created with the sample rows before
_seed_if_empty reads it. -/
def productDBInit (fs : Option (List CsvRow)) (tbl : ProductTable) (now : String) :
    Option (List CsvRow) × ProductTable :=
  let fs2 := ensureProductsFile fs
  (fs2, seedIfEmpty tbl fs2 now)

/-- The recognized fields of ProductDB.update_product (db.py lines 927-939). -/
def allowedFields : List String :=
  ["name", "sku", "category", "price", "cost", "tax_rate", "unit",
   "description", "features", "best_for", "active"]

/-- One SET clause of the UPDATE: assign the named column. -/
def applyField (p : Product) (kv : String × SQLVal) : Product :=
  if kv.1 = "name" then { p with name := kv.2 }
  else if kv.1 = "sku" then { p with sku := kv.2 }
  else if kv.1 = "category" then { p with category := kv.2 }
  else if kv.1 = "price" then { p with price := kv.2 }
  else if kv.1 = "cost" then { p with cost := kv.2 }
  else if kv.1 = "tax_rate" then { p with tax_rate := kv.2 }
  else if kv.1 = "unit" then { p with unit := kv.2 }
  else if kv.1 = "description" then { p with description := kv.2 }
  else if kv.1 = "features" then { p with features := kv.2 }
  else if kv.1 = "best_for" then { p with best_for := kv.2 }
  else if kv.1 = "active" then { p with active := kv.2 }
  else p

/-- ProductDB.update_product: keep only recognized fields (in their kwargs
order); with none, return False without touching the table; otherwise
UPDATE the row with the given id, also setting updated_at, and return True
whether or not such a row exists. -/
def updateProduct (tbl : List Product) (pid : ℕ) (fields : List (String × SQLVal))
    (now : String) : Bool × List Product :=
  let updates := fields.filter (fun kv => allowedFields.contains kv.1)
  if updates.isEmpty then (false, tbl)
  else
    (true,
      tbl.map (fun p =>
        if p.id = pid then { updates.foldl applyField p with updated_at := .text now }
        else p))

/-! ## Collaborator client and report narrative (llm_client.py, monitoring.py) -/

/-- The LLM section of Config (config.py lines 34-37). -/
structure LLMConfig where
  LLM_PROVIDER : String := "none"
  API_KEY : String := ""
  LLM_ENDPOINT : String := ""
  LLM_MODEL : String := ""
deriving DecidableEq, Repr

/-- LLMClient._is_enabled. -/
def isEnabled (c : LLMConfig) : Bool :=
  if c.LLM_PROVIDER = "none" then false
  else if c.LLM_PROVIDER = "openai_compatible" then
    decide (c.API_KEY ≠ "") && decide (c.LLM_ENDPOINT ≠ "") && decide (c.LLM_MODEL ≠ "")
  else false

/-- LLMClient.complete.  The HTTP POST and response parsing are modelled by
an oracle giving the content string of the first choice, none standing for
any transport, auth or malformed-response failure (all caught).  The method
returns None when disabled, and strips the content, returning None when the
strip leaves nothing. -/
def complete (c : LLMConfig) (oracle : String → String → Option String)
    (system_prompt user_prompt : String) : Option String :=
  if !(isEnabled c) then none
  else if c.LLM_PROVIDER = "openai_compatible" then
    match oracle system_prompt user_prompt with
    | none => none
    | some content =>
      let t := pyStrip content
      if t = "" then none else some t
  else none

/-- The fixed below-target fallback line of generate_daily_report. -/
def belowTargetMsg : String :=
  "Sales are below target. Consider follow-ups on warm leads."

/-- The fixed on-track fallback line of generate_daily_report. -/
def onTrackMsg : String :=
  "Sales are on track. Keep momentum with demos and follow-ups."

/-- The system prompt generate_daily_report sends to the collaborator. -/
def reportSystemPrompt : String :=
  "You are a sales analytics assistant. Provide a short summary with trends and 1-2 recommendations."

/-- The summary line printed by generate_daily_report: the collaborator
text when one came back, else the two-branch rule on today versus the
configured daily target. -/
def reportNarrative (ai : Option String) (count : ℕ) (target : ℤ) : String :=
  match ai with
  | some s => s
  | none => if (count : ℤ) < target then belowTargetMsg else onTrackMsg

/-- SalesMonitor.generate_daily_report, restricted to the narrative it
prints: call the collaborator with the fixed system prompt and the summary
text, then fall back by reportNarrative. -/
def dailyReportNarrative (c : LLMConfig) (oracle : String → String → Option String)
    (summary_text : String) (count : ℕ) (target : ℤ) : String :=
  reportNarrative (complete c oracle reportSystemPrompt summary_text) count target

/-! ## Theorems -/

theorem filter_count_lt_eq_drop {β : Type} (n : ℕ) :
    ∀ (l : List (ℕ × β)), (l.map Prod.fst).Pairwise (· < ·) →
      l.filter (fun p => ((l.map Prod.fst).filter (fun j => p.1 < j)).length < n)
        = l.drop (l.length - n)
  | [], _ => by simp
  | a :: t, h => by
    rw [List.map_cons, List.pairwise_cons] at h
    obtain ⟨ha, ht⟩ := h
    have hmem : ∀ p ∈ t, a.1 < p.1 := fun p hp => ha p.1 (List.mem_map_of_mem _ hp)
    have hheadlist :
        ((a :: t).map Prod.fst).filter (fun j => decide (a.1 < j)) = t.map Prod.fst := by
      rw [List.map_cons, List.filter_cons]
      have h1 : ¬ (a.1 < a.1) := lt_irrefl _
      simp only [h1, decide_eq_true_eq, if_false, decide_False]
      exact List.filter_eq_self.mpr (fun j hj => decide_eq_true (ha j hj))
    have hts : ∀ p ∈ t,
        (decide ((((a :: t).map Prod.fst).filter (fun j => decide (p.1 < j))).length < n))
          = (decide (((t.map Prod.fst).filter (fun j => decide (p.1 < j))).length < n)) := by
      intro p hp
      have h2 : ¬ (p.1 < a.1) := by have := hmem p hp; omega
      rw [List.map_cons, List.filter_cons]
      simp [h2]
    rw [List.filter_cons, List.filter_congr hts, filter_count_lt_eq_drop n t ht, hheadlist]
    by_cases hn : t.length < n
    · have h3 : t.length - n = 0 := by omega
      have h4 : t.length + 1 - n = 0 := by omega
      simp only [List.length_cons, h4, List.drop_zero, h3]
      simp [hn]
    · have h3 : t.length + 1 - n = (t.length - n) + 1 := by omega
      simp only [List.length_cons, h3, List.drop_succ_cons]
      simp [hn]

/-- C1: after every add_purchase from a well-formed state within the
retention bound, the table again holds at most MAX_RECENT_PURCHASES rows,
those rows are exactly the trailing (highest-id) segment of the old rows
plus the new one, a row survives precisely when fewer than
MAX_RECENT_PURCHASES ids exceed its own (timestamps play no part), and the
state stays well-formed, so the bound holds along every call sequence. -/
theorem c1_bounded_retention (cfg : Config) (st : Ledger) (inp : PurchaseInput)
    (day : ℤ) (hwf : st.WF) (hlen : st.rows.length ≤ cfg.MAX_RECENT_PURCHASES) :
    (addPurchase cfg st inp day).rows.length ≤ cfg.MAX_RECENT_PURCHASES ∧
    (addPurchase cfg st inp day).rows =
      (st.rows ++ [(st.nextId, purchaseRowOf cfg inp day)]).drop
        (st.rows.length + 1 - cfg.MAX_RECENT_PURCHASES) ∧
    (∀ p, p ∈ (addPurchase cfg st inp day).rows ↔
      p ∈ st.rows ++ [(st.nextId, purchaseRowOf cfg inp day)] ∧
      (((st.rows ++ [(st.nextId, purchaseRowOf cfg inp day)]).map Prod.fst).filter
        (fun j => p.1 < j)).length < cfg.MAX_RECENT_PURCHASES) ∧
    (addPurchase cfg st inp day).WF := by
  obtain ⟨hpw, hid⟩ := hwf
  have hallpw :
      (((st.rows ++ [(st.nextId, purchaseRowOf cfg inp day)]).map Prod.fst).Pairwise (· < ·)) := by
    rw [List.map_append]
    refine List.pairwise_append.mpr ⟨hpw, List.pairwise_singleton _ _, ?_⟩
    intro i hi j hj
    simp only [List.map_cons, List.map_nil, List.mem_singleton] at hj
    subst hj
    exact hid i hi
  have hfe : (addPurchase cfg st inp day).rows
      = (st.rows ++ [(st.nextId, purchaseRowOf cfg inp day)]).filter
          (fun p => (((st.rows ++ [(st.nextId, purchaseRowOf cfg inp day)]).map Prod.fst).filter
            (fun j => p.1 < j)).length < cfg.MAX_RECENT_PURCHASES) := rfl
  have hdrop : (addPurchase cfg st inp day).rows
      = (st.rows ++ [(st.nextId, purchaseRowOf cfg inp day)]).drop
          ((st.rows ++ [(st.nextId, purchaseRowOf cfg inp day)]).length - cfg.MAX_RECENT_PURCHASES) := by
    rw [hfe, filter_count_lt_eq_drop _ _ hallpw]
  have hlen1 : (st.rows ++ [(st.nextId, purchaseRowOf cfg inp day)]).length = st.rows.length + 1 := by
    simp
  refine ⟨?_, ?_, ?_, ?_, ?_⟩
  · rw [hdrop, List.length_drop]
    omega
  · rw [hdrop, hlen1]
  · intro p
    rw [hfe, List.mem_filter]
    simp only [decide_eq_true_eq]
  · rw [hfe]
    exact List.Pairwise.sublist ((List.filter_sublist _).map Prod.fst) hallpw
  · intro i hi
    have hnext : (addPurchase cfg st inp day).nextId = st.nextId + 1 := rfl
    rw [hnext]
    rw [hfe] at hi
    obtain ⟨p, hp, rfl⟩ := List.mem_map.mp hi
    have hpall := List.mem_of_mem_filter hp
    rcases List.mem_append.mp hpall with h | h
    · have := hid p.1 (List.mem_map_of_mem _ h)
      omega
    · simp only [List.mem_singleton] at h
      subst h
      omega

theorem c1_bounded_retention_witness :
    (addPurchase {} ⟨[], 0⟩ {} 0).rows.length ≤ ({} : Config).MAX_RECENT_PURCHASES :=
  (c1_bounded_retention {} ⟨[], 0⟩ {} 0 ⟨by simp, by simp⟩ (by simp)).1

/-- C2 (amended): when total is not supplied, the stored total is
subtotal minus the clamped discount plus the clamped tax, the result
itself clamped at 0 (subtotal being quantity times unit price clamped at
0); an explicitly supplied total that parses to a negative number is
stored as 0. -/
theorem c2_total_rule (cfg : Config) (inp : PurchaseInput) (day : ℤ) :
    (inp.total = none →
      (purchaseRowOf cfg inp day).total =
        some (max (subtotalVal inp - max (discountVal inp) 0 + max (taxVal inp) 0) 0)) ∧
    (∀ v q, inp.total = some v → pyFloat v = some q → q < 0 →
      (purchaseRowOf cfg inp day).total = some 0) ∧
    (purchaseRowOf cfg inp day).subtotal = some (max (qtyVal inp * unitPriceVal inp) 0) ∧
    (purchaseRowOf cfg inp day).discount = some (discountVal inp) ∧
    (purchaseRowOf cfg inp day).tax = some (taxVal inp) := by
  have hmax : ∀ x : ℚ, (if x < 0 then 0 else x) = max x 0 := by
    intro x
    rcases lt_or_ge x 0 with h | h
    · simp [h, max_eq_right h.le]
    · simp [not_lt.mpr h, max_eq_left h]
  refine ⟨?_, ?_, rfl, rfl, rfl⟩
  · intro h0
    show some (totalVal inp) = _
    simp only [totalVal, h0, hmax]
    rw [computedTotalVal]
  · intro v q hv hq hneg
    show some (totalVal inp) = some 0
    simp only [totalVal, hv, coerceFloat, hq, Option.getD_some]
    rw [if_pos hneg]

theorem c2_total_rule_witness :
    (purchaseRowOf {} { amount := .num 10, total := some (.num (-4)) } 0).total = some 0 :=
  (c2_total_rule {} { amount := .num 10, total := some (.num (-4)) } 0).2.1
    (.num (-4)) (-4) rfl rfl (by norm_num)

/-- C2 counterexample: quantity 1, unit price 10, discount -5, tax 0, no
explicit total: the code stores total 10, but subtotal - discount + tax
is 15. -/
theorem c2_total_rule_counterexample :
    (purchaseRowOf {} { amount := .num 10, discount := .num (-5) } 0).total = some 10 ∧
    (purchaseRowOf {} { amount := .num 10, discount := .num (-5) } 0).subtotal = some 10 ∧
    (purchaseRowOf {} { amount := .num 10, discount := .num (-5) } 0).discount = some (-5) ∧
    (purchaseRowOf {} { amount := .num 10, discount := .num (-5) } 0).tax = some 0 ∧
    (10 : ℚ) - (-5) + 0 ≠ 10 := by
  refine ⟨?_, ?_, ?_, ?_, by norm_num⟩ <;>
    · show some _ = some _
      norm_num [totalVal, computedTotalVal, subtotalVal, qtyVal, unitPriceVal,
        discountVal, taxVal, amountVal, coerceFloat, pyFloat, pyTruthy]

/-- C4: a quantity of 0, of "-3" or of any unparsable string is stored as
1.0, and an omitted unit price is stored as the coerced amount. -/
theorem c4_quantity_default (cfg : Config) (inp : PurchaseInput) (day : ℤ) :
    (inp.quantity = .num 0 → (purchaseRowOf cfg inp day).quantity = some 1) ∧
    (inp.quantity = .str "-3" → (purchaseRowOf cfg inp day).quantity = some 1) ∧
    (∀ s, inp.quantity = .str s → floatOfString s = none →
      (purchaseRowOf cfg inp day).quantity = some 1) ∧
    (inp.unit_price = none →
      (purchaseRowOf cfg inp day).unit_price = some (coerceFloat inp.amount 0)) := by
  refine ⟨?_, ?_, ?_, ?_⟩
  · intro h
    show some (qtyVal inp) = some 1
    simp [qtyVal, h, pyTruthy]
  · intro h
    show some (qtyVal inp) = some 1
    simp only [qtyVal, h, pyTruthy, coerceFloat, pyFloat, floatOfString]
    rw [show floatParse "-3" = some (true, 3, 0, 0) from by decide]
    norm_num [ratOfParts]
    intro hgt
    rw [if_neg (by decide : ¬ ("-3" = ""))] at hgt
    exact absurd hgt (by norm_num)
  · intro s h hparse
    show some (qtyVal inp) = some 1
    by_cases hs : s = ""
    · subst hs
      simp [qtyVal, h, pyTruthy]
    · simp [qtyVal, h, pyTruthy, hs, coerceFloat, pyFloat, hparse]
  · intro h
    show some (unitPriceVal inp) = _
    simp [unitPriceVal, h, amountVal]

theorem c4_quantity_default_witness :
    (purchaseRowOf {} { amount := .num 5, quantity := .str "gift" } 0).quantity = some 1 :=
  (c4_quantity_default {} { amount := .num 5, quantity := .str "gift" } 0).2.2.1
    "gift" rfl (by decide)

/-- C10: the amount column of every row add_purchase writes receives the
same value as the total column, so COALESCE(total, amount, 0) on a
ledger-written row is its total; with a positive retention bound the new
row is retained. -/
theorem c10_amount_is_total (cfg : Config) (st : Ledger) (inp : PurchaseInput) (day : ℤ)
    (hwf : st.WF) (hN : 1 ≤ cfg.MAX_RECENT_PURCHASES) :
    (purchaseRowOf cfg inp day).amount = (purchaseRowOf cfg inp day).total ∧
    coalesceTA (purchaseRowOf cfg inp day) = totalVal inp ∧
    (st.nextId, purchaseRowOf cfg inp day) ∈ (addPurchase cfg st inp day).rows := by
  refine ⟨rfl, rfl, ?_⟩
  show _ ∈ List.filter _ _
  apply List.mem_filter.mpr
  refine ⟨List.mem_append_right _ (List.mem_singleton_self _), ?_⟩
  have hfil : (((st.rows ++ [(st.nextId, purchaseRowOf cfg inp day)]).map Prod.fst).filter
      (fun j => decide (st.nextId < j))) = [] := by
    apply List.filter_eq_nil_iff.mpr
    intro j hj
    rw [List.map_append] at hj
    rcases List.mem_append.mp hj with h | h
    · have := hwf.2 j h
      simp only [decide_eq_true_eq]
      omega
    · simp only [List.map_cons, List.map_nil, List.mem_singleton] at h
      subst h
      simp
  simp only [decide_eq_true_eq]
  rw [hfil]
  simpa using hN

theorem c10_amount_is_total_witness :
    (0, purchaseRowOf {} { amount := .num 3 } 5) ∈ (addPurchase {} ⟨[], 0⟩ { amount := .num 3 } 5).rows :=
  (c10_amount_is_total {} ⟨[], 0⟩ { amount := .num 3 } 5 ⟨by simp, by simp⟩ (by simp)).2.2

theorem mem_insertDate (x d : ℤ) : ∀ (l : List ℤ), (x ∈ insertDate d l ↔ x = d ∨ x ∈ l)
  | [] => by simp [insertDate]
  | e :: es => by
    rw [insertDate]
    split_ifs with h1 h2
    · simp only [List.mem_cons]
    · subst h2
      simp only [List.mem_cons]
      tauto
    · rw [List.mem_cons, mem_insertDate x d es, List.mem_cons]
      tauto

theorem pairwise_insertDate (d : ℤ) :
    ∀ (l : List ℤ), l.Pairwise (· < ·) → (insertDate d l).Pairwise (· < ·)
  | [], _ => by simp [insertDate]
  | e :: es, h => by
    rw [List.pairwise_cons] at h
    obtain ⟨he, hes⟩ := h
    rw [insertDate]
    split_ifs with h1 h2
    · refine List.pairwise_cons.mpr ⟨?_, List.pairwise_cons.mpr ⟨he, hes⟩⟩
      intro a ha
      rcases List.mem_cons.mp ha with rfl | ha2
      · exact h1
      · exact lt_trans h1 (he a ha2)
    · exact List.pairwise_cons.mpr ⟨he, hes⟩
    · refine List.pairwise_cons.mpr ⟨?_, pairwise_insertDate d es hes⟩
      intro a ha
      rcases (mem_insertDate a d es).mp ha with rfl | ha2
      · omega
      · exact he a ha2

theorem pairwise_sortDates : ∀ (l : List ℤ), (sortDates l).Pairwise (· < ·)
  | [] => by simp [sortDates]
  | d :: l => pairwise_insertDate d (sortDates l) (pairwise_sortDates l)

theorem mem_sortDates (x : ℤ) : ∀ (l : List ℤ), (x ∈ sortDates l ↔ x ∈ l)
  | [] => by simp [sortDates]
  | d :: l => by
    show x ∈ insertDate d (sortDates l) ↔ _
    rw [mem_insertDate, mem_sortDates x l, List.mem_cons]

/-- C7: for positive days (and a table whose dates do not lie in the
future, as every ledger write timestamps with the current clock), the
trend lists exactly the dates of the trailing window that have at least
one purchase, in strictly ascending date order, each with the revenue sum
COALESCE(total, amount, 0) over that date; window dates with no purchase
yield no entry. -/
theorem c7_sales_trend (rows : List (ℕ × PurchaseRow)) (today days : ℤ)
    (hd : 0 < days) (hb : ∀ p ∈ rows, p.2.day ≤ today) :
    ((getSalesTrend rows today days).map Prod.fst).Pairwise (· < ·) ∧
    ∀ d rev, ((d, rev) ∈ getSalesTrend rows today days ↔
      (today - (days - 1) ≤ d ∧ d ≤ today ∧ (∃ p ∈ rows, p.2.day = d) ∧
        rev = dayRevenue rows d)) := by
  have hnot : ¬ days ≤ 0 := by omega
  have hrev : ∀ d : ℤ, today - (days - 1) ≤ d →
      dayRevenue (rows.filter (fun p => today - (days - 1) ≤ p.2.day)) d
        = dayRevenue rows d := by
    intro d hld
    rw [dayRevenue, dayRevenue, List.filter_filter]
    have hpe : List.filter (fun a => decide (a.2.day = d) && decide (today - (days - 1) ≤ a.2.day)) rows
        = List.filter (fun p => decide (p.2.day = d)) rows := by
      apply List.filter_congr
      intro p hp
      by_cases hpd : p.2.day = d
      · simp [hpd, hld]
      · simp [hpd]
    rw [hpe]
  rw [getSalesTrend, if_neg hnot]
  constructor
  · rw [List.map_map]
    have hid : (Prod.fst ∘ fun d => (d, dayRevenue (rows.filter (fun p => today - (days - 1) ≤ p.2.day)) d)) = id := rfl
    rw [hid, List.map_id]
    exact pairwise_sortDates _
  · intro d rev
    rw [List.mem_map]
    constructor
    · rintro ⟨d2, hd2, heq⟩
      injection heq with h1 h2
      subst h1
      subst h2
      rw [mem_sortDates] at hd2
      obtain ⟨p, hpF, hpd⟩ := List.mem_map.mp hd2
      obtain ⟨hpmem, hplo⟩ := List.mem_filter.mp hpF
      rw [decide_eq_true_eq] at hplo
      have hlo : today - (days - 1) ≤ d2 := by omega
      have hhi : d2 ≤ today := by have := hb p hpmem; omega
      exact ⟨hlo, hhi, ⟨p, hpmem, hpd⟩, hrev d2 hlo⟩
    · rintro ⟨hlo, hhi, ⟨p, hpmem, hpd⟩, rfl⟩
      refine ⟨d, ?_, by rw [hrev d hlo]⟩
      rw [mem_sortDates]
      apply List.mem_map.mpr
      refine ⟨p, ?_, hpd⟩
      exact List.mem_filter.mpr ⟨hpmem, by rw [decide_eq_true_eq, hpd]; exact hlo⟩

theorem c7_sales_trend_witness :
    ((getSalesTrend [] 100 7).map Prod.fst).Pairwise (· < ·) :=
  (c7_sales_trend [] 100 7 (by norm_num) (by simp)).1

/-- C8: a date label no stored purchase falls on yields count 0, revenue 0
and average 0, with the average guarded rather than divided. -/
theorem c8_daily_summary_empty (rows : List (ℕ × PurchaseRow)) (label : ℤ)
    (h : ∀ p ∈ rows, p.2.day ≠ label) :
    getDailySummary rows label = ⟨0, 0, 0⟩ := by
  have hf : rows.filter (fun p => decide (p.2.day = label)) = [] :=
    List.filter_eq_nil_iff.mpr (fun p hp => by simpa using h p hp)
  rw [getDailySummary]
  simp [hf]

theorem c8_daily_summary_empty_witness :
    getDailySummary [] 7 = ⟨0, 0, 0⟩ :=
  c8_daily_summary_empty [] 7 (by simp)

/-- C3: with a non-blank stripped name, upsert_customer updates the first
row whose email equals a non-empty incoming email (whatever its name),
else updates the first row whose name matches, else inserts a fresh row
and returns its id; in an update, each optional field takes the incoming
value only when that value is non-empty, keeping the prior one otherwise,
as the listed field equations of mergeCustomer and the two keepNonEmpty
laws state. -/
theorem c3_upsert_resolution (db : CustomerTable) (inp : CustomerInput) (now : String)
    (hname : pyStrip inp.name ≠ "") :
    (∀ c, pyStrip inp.email ≠ "" →
      db.rows.find? (fun r => r.email = pyStrip inp.email) = some c →
      upsertCustomer db inp now =
        (some c.id,
          { db with
            rows := db.rows.map (fun r => if r.id = c.id then mergeCustomer c inp now else r) })) ∧
    (∀ c, (pyStrip inp.email = "" ∨
           db.rows.find? (fun r => r.email = pyStrip inp.email) = none) →
      db.rows.find? (fun r => r.name = pyStrip inp.name) = some c →
      upsertCustomer db inp now =
        (some c.id,
          { db with
            rows := db.rows.map (fun r => if r.id = c.id then mergeCustomer c inp now else r) })) ∧
    ((pyStrip inp.email = "" ∨
      db.rows.find? (fun r => r.email = pyStrip inp.email) = none) →
      db.rows.find? (fun r => r.name = pyStrip inp.name) = none →
      upsertCustomer db inp now =
        (some db.nextId,
          { rows := db.rows ++ [newCustomerOf db.nextId inp now]
            nextId := db.nextId + 1 })) ∧
    (∀ c,
      (mergeCustomer c inp now).name = pyStrip inp.name ∧
      (mergeCustomer c inp now).email = keepNonEmpty (pyStrip inp.email) c.email ∧
      (mergeCustomer c inp now).phone = keepNonEmpty (pyStrip inp.phone) c.phone ∧
      (mergeCustomer c inp now).company = keepNonEmpty (pyStrip inp.company) c.company ∧
      (mergeCustomer c inp now).industry = keepNonEmpty (pyStrip inp.industry) c.industry ∧
      (mergeCustomer c inp now).segment = keepNonEmpty (pyStrip inp.segment) c.segment ∧
      (mergeCustomer c inp now).status = keepNonEmpty (pyStrip inp.status) c.status ∧
      (mergeCustomer c inp now).lead_source = keepNonEmpty (pyStrip inp.lead_source) c.lead_source ∧
      (mergeCustomer c inp now).address_line1 = keepNonEmpty (pyStrip inp.address_line1) c.address_line1 ∧
      (mergeCustomer c inp now).address_line2 = keepNonEmpty (pyStrip inp.address_line2) c.address_line2 ∧
      (mergeCustomer c inp now).city = keepNonEmpty (pyStrip inp.city) c.city ∧
      (mergeCustomer c inp now).state = keepNonEmpty (pyStrip inp.state) c.state ∧
      (mergeCustomer c inp now).country = keepNonEmpty (pyStrip inp.country) c.country ∧
      (mergeCustomer c inp now).postal_code = keepNonEmpty (pyStrip inp.postal_code) c.postal_code ∧
      (mergeCustomer c inp now).notes = keepNonEmpty (pyStrip inp.notes) c.notes ∧
      (mergeCustomer c inp now).last_contact_at = keepNonEmpty (pyStrip inp.last_contact_at) c.last_contact_at ∧
      (mergeCustomer c inp now).updated_at = now ∧
      (mergeCustomer c inp now).created_at = c.created_at ∧
      (mergeCustomer c inp now).id = c.id) ∧
    (∀ i p : String, (i = "" → keepNonEmpty i p = p) ∧ (i ≠ "" → keepNonEmpty i p = i)) := by
  refine ⟨?_, ?_, ?_, ?_, ?_⟩
  · intro c he hf
    simp [upsertCustomer, hname, he, hf]
  · intro c he hf
    rcases he with he | he
    · simp [upsertCustomer, hname, he, hf]
    · simp [upsertCustomer, hname, he, hf]
  · intro he hf
    rcases he with he | he
    · simp [upsertCustomer, hname, he, hf]
    · simp [upsertCustomer, hname, he, hf]
  · intro c
    refine ⟨rfl, rfl, rfl, rfl, rfl, rfl, rfl, rfl, rfl, rfl, rfl, rfl, rfl, rfl, rfl, rfl, rfl, rfl, rfl⟩
  · intro i p
    exact ⟨fun h => by simp [keepNonEmpty, h], fun h => by simp [keepNonEmpty, h]⟩

theorem c3_upsert_resolution_witness :
    upsertCustomer ⟨[], 0⟩ { name := "Ann" } "t" =
      (some 0, ⟨[newCustomerOf 0 { name := "Ann" } "t"], 1⟩) :=
  (c3_upsert_resolution ⟨[], 0⟩ { name := "Ann" } "t" (by decide)).2.2.1
    (Or.inl (by decide)) rfl

/-- C5: constructing ProductDB over an empty table when no seed file is
present first creates the file with the sample rows (ensure_data_files)
and then seeds from it: exactly 3 products, the sample set by name and
price, all with active 1; when any row already exists, construction
leaves the table unchanged. -/
theorem c5_seed_exactly_once (now : String) (nid : ℕ) :
    (productDBInit none ⟨[], nid⟩ now).2.rows.length = 3 ∧
    ((productDBInit none ⟨[], nid⟩ now).2.rows.map (fun p => p.name) =
      [.text "CRM Pro", .text "Analytics Suite", .text "Marketing Tool"]) ∧
    ((productDBInit none ⟨[], nid⟩ now).2.rows.map (fun p => p.price) =
      [.real 99, .real 149, .real 79]) ∧
    (∀ p ∈ (productDBInit none ⟨[], nid⟩ now).2.rows, p.active = .int 1) ∧
    (∀ fs tbl, tbl.rows ≠ [] → (productDBInit fs tbl now).2 = tbl) := by
  have h99 : floatOfString "99" = some 99 := by
    rw [floatOfString, show floatParse "99" = some (false, 99, 0, 0) from by decide]
    norm_num [ratOfParts]
  have h149 : floatOfString "149" = some 149 := by
    rw [floatOfString, show floatParse "149" = some (false, 149, 0, 0) from by decide]
    norm_num [ratOfParts]
  have h79 : floatOfString "79" = some 79 := by
    rw [floatOfString, show floatParse "79" = some (false, 79, 0, 0) from by decide]
    norm_num [ratOfParts]
  have hn1 : pyStrip "CRM Pro" = "CRM Pro" := by decide
  have hn2 : pyStrip "Analytics Suite" = "Analytics Suite" := by decide
  have hn3 : pyStrip "Marketing Tool" = "Marketing Tool" := by decide
  have hseed : seedFromCsv sampleCsvRows nid now =
      [csvProduct nid "CRM Pro" 99 sampleCsvRows[0] now,
       csvProduct (nid + 1) "Analytics Suite" 149 sampleCsvRows[1] now,
       csvProduct (nid + 2) "Marketing Tool" 79 sampleCsvRows[2] now] := by
    simp only [sampleCsvRows, seedFromCsv, csvPrice, hn1, hn2, hn3, h99, h149, h79]
    simp
  have hinit : (productDBInit none ⟨[], nid⟩ now).2.rows =
      [csvProduct nid "CRM Pro" 99 sampleCsvRows[0] now,
       csvProduct (nid + 1) "Analytics Suite" 149 sampleCsvRows[1] now,
       csvProduct (nid + 2) "Marketing Tool" 79 sampleCsvRows[2] now] := by
    show (seedIfEmpty ⟨[], nid⟩ (ensureProductsFile none) now).rows = _
    simp only [ensureProductsFile, seedIfEmpty]
    rw [hseed]
    simp
  refine ⟨?_, ?_, ?_, ?_, ?_⟩
  · rw [hinit]
    rfl
  · rw [hinit]
    simp [csvProduct]
  · rw [hinit]
    simp [csvProduct]
  · rw [hinit]
    intro p hp
    simp only [List.mem_cons, List.not_mem_nil, or_false] at hp
    rcases hp with rfl | rfl | rfl <;> rfl
  · intro fs tbl h
    show (seedIfEmpty tbl (ensureProductsFile fs) now) = tbl
    rw [seedIfEmpty.eq_def]
    simp [List.length_pos.mpr h]

theorem c5_seed_exactly_once_witness :
    (productDBInit none ⟨[csvProduct 0 "X" 1 {} "t"], 1⟩ "t").2
      = ⟨[csvProduct 0 "X" 1 {} "t"], 1⟩ :=
  (c5_seed_exactly_once "t" 0).2.2.2.2 none ⟨[csvProduct 0 "X" 1 {} "t"], 1⟩ (by simp)

theorem applyField_id (p : Product) (kv : String × SQLVal) :
    (applyField p kv).id = p.id := by
  rw [applyField]
  simp only [apply_ite (Product.id)]
  simp only [ite_self]

theorem foldl_applyField_id (p : Product) :
    ∀ (l : List (String × SQLVal)), (l.foldl applyField p).id = p.id
  | [] => rfl
  | kv :: l => by
    rw [List.foldl_cons, foldl_applyField_id (applyField p kv) l, applyField_id]

/-- C9: update_product returns true exactly when some supplied field is
recognized, whatever the table holds; unrecognized fields have no effect
at all; rows with another id are untouched; and whenever a recognized
field is applied, the row with the given id (when present) gets its
updated timestamp set. -/
theorem c9_update_recognized (tbl : List Product) (pid : ℕ)
    (fields : List (String × SQLVal)) (now : String) :
    ((updateProduct tbl pid fields now).1 = true ↔ ∃ kv ∈ fields, kv.1 ∈ allowedFields) ∧
    (updateProduct tbl pid fields now =
      updateProduct tbl pid (fields.filter (fun kv => allowedFields.contains kv.1)) now) ∧
    (∀ p ∈ tbl, p.id ≠ pid → p ∈ (updateProduct tbl pid fields now).2) ∧
    ((∃ kv ∈ fields, kv.1 ∈ allowedFields) → ∀ p ∈ tbl, p.id = pid →
      ∃ q ∈ (updateProduct tbl pid fields now).2, q.id = p.id ∧ q.updated_at = .text now) := by
  have hmemiff : ∀ kv : String × SQLVal,
      (allowedFields.contains kv.1 = true) ↔ kv.1 ∈ allowedFields := by
    intro kv
    exact List.elem_iff
  refine ⟨?_, ?_, ?_, ?_⟩
  · constructor
    · intro h
      have hne : fields.filter (fun kv => allowedFields.contains kv.1) ≠ [] := by
        intro hnil
        rw [updateProduct, hnil] at h
        simp at h
      obtain ⟨kv, hkv⟩ := List.exists_mem_of_ne_nil _ hne
      obtain ⟨hmem, hcon⟩ := List.mem_filter.mp hkv
      exact ⟨kv, hmem, (hmemiff kv).mp hcon⟩
    · rintro ⟨kv, hkv, hal⟩
      have hm : kv ∈ fields.filter (fun kv => allowedFields.contains kv.1) :=
        List.mem_filter.mpr ⟨hkv, (hmemiff kv).mpr hal⟩
      have hne2 : (fields.filter (fun kv => allowedFields.contains kv.1)).isEmpty = false := by
        cases hc : fields.filter (fun kv => allowedFields.contains kv.1)
        · rw [hc] at hm
          cases hm
        · rfl
      rw [updateProduct]
      simp only [hne2, Bool.false_eq_true, if_false]
  · have hff : (fields.filter (fun kv => allowedFields.contains kv.1)).filter
        (fun kv => allowedFields.contains kv.1)
        = fields.filter (fun kv => allowedFields.contains kv.1) := by
      rw [List.filter_filter]
      apply List.filter_congr
      intro a ha
      rw [Bool.and_self]
    rw [updateProduct, updateProduct, hff]
  · intro p hp hne
    rw [updateProduct]
    by_cases h : (fields.filter (fun kv => allowedFields.contains kv.1)).isEmpty
    · simp only [h, if_true]
      exact hp
    · simp only [h, if_false]
      exact List.mem_map.mpr ⟨p, hp, by rw [if_neg hne]⟩
  · rintro ⟨kv, hkv, hal⟩ p hp hpid
    have hm : kv ∈ fields.filter (fun kv => allowedFields.contains kv.1) :=
      List.mem_filter.mpr ⟨hkv, (hmemiff kv).mpr hal⟩
    have hne2 : (fields.filter (fun kv => allowedFields.contains kv.1)).isEmpty = false := by
      cases hc : fields.filter (fun kv => allowedFields.contains kv.1)
      · rw [hc] at hm
        cases hm
      · rfl
    refine ⟨{ (fields.filter (fun kv => allowedFields.contains kv.1)).foldl applyField p with
        updated_at := .text now }, ?_, ?_, rfl⟩
    · rw [updateProduct]
      simp only [hne2, Bool.false_eq_true, if_false]
      exact List.mem_map.mpr ⟨p, hp, by rw [if_pos hpid]⟩
    · exact foldl_applyField_id p _

theorem c9_update_recognized_witness :
    (updateProduct [] 0 [("price", SQLVal.real 5)] "t").1 = true :=
  ((c9_update_recognized [] 0 [("price", SQLVal.real 5)] "t").1).mpr
    ⟨("price", SQLVal.real 5), List.mem_singleton_self _, by decide⟩

/-- C6: with the provider selector "none" the collaborator client returns
none for every input, and the daily report narrative is exactly the
two-branch fallback on count versus target, hence always one of the two
fixed strings and never a collaborator-derived one. -/
theorem c6_disabled_fallback (c : LLMConfig) (oracle : String → String → Option String)
    (sys user summary : String) (count : ℕ) (target : ℤ)
    (h : c.LLM_PROVIDER = "none") :
    complete c oracle sys user = none ∧
    dailyReportNarrative c oracle summary count target =
      (if (count : ℤ) < target then belowTargetMsg else onTrackMsg) ∧
    (dailyReportNarrative c oracle summary count target = belowTargetMsg ∨
      dailyReportNarrative c oracle summary count target = onTrackMsg) := by
  have hc2 : ∀ s u : String, complete c oracle s u = none := by
    intro s u
    simp [complete, isEnabled, h]
  refine ⟨hc2 sys user, ?_, ?_⟩
  · rw [dailyReportNarrative, hc2 reportSystemPrompt summary]
    rfl
  · rw [dailyReportNarrative, hc2 reportSystemPrompt summary]
    show (if (count : ℤ) < target then belowTargetMsg else onTrackMsg) = _ ∨
      (if (count : ℤ) < target then belowTargetMsg else onTrackMsg) = _
    by_cases hlt : (count : ℤ) < target
    · exact Or.inl (if_pos hlt)
    · exact Or.inr (if_neg hlt)

theorem c6_disabled_fallback_witness :
    complete {} (fun _ _ => some "ai text") "s" "u" = none :=
  (c6_disabled_fallback {} (fun _ _ => some "ai text") "s" "u" "sum" 0 10 rfl).1

end AISales
